import Mathlib

/-!
Verification of the quota-aware scheduler and debounced command pipeline of the
tado_hijack integration.

The definitions below are a shallow embedding of the Python sources:
  * helpers/overlay_validator.py  (validate_overlay_payload)
  * helpers/api_manager.py        (queue_command, _worker_loop, _process_batch,
                                   _execute_zone_actions)
  * helpers/quota_math.py         (calculate_remaining_polling_budget,
                                   calculate_weighted_interval)
  * coordinator.py                (_calculate_auto_quota_interval,
                                   _calculate_weighted_interval,
                                   _adjust_interval_for_auto_quota,
                                   _async_update_data gating,
                                   _schedule_reset_poll / _on_reset_poll,
                                   _is_in_reduced_window)

Python ints are embedded as Int/Nat; float arithmetic is embedded as exact
rational arithmetic over ℚ.  Wall-clock datetimes are embedded as absolute
seconds (Nat); `datetime.time()` becomes `· % 86400`.  Fallible paths are made
explicit: an uncaught Python exception becomes `Except.error`, a caught one is
folded into the value the `except` clause returns.  Pieces of the repository
that are referenced but whose files are not in the provided sources
(rate_limit_manager.py, utils.py apply_jitter) are modelled from the spec and
marked as such in their doc comments.
-/

namespace TadoHijack

/-! ### overlay_validator.py -/

/-- The `setting` part of an overlay payload: `data.get("setting", {})` with the
three fields the validator reads (`power`, `temperature`, `mode`); an absent
dict key is `none`.  The temperature value itself is never inspected, only its
presence, so it is carried as a rational. -/
structure OverlaySetting where
  power : Option String
  temperature : Option ℚ
  mode : Option String
deriving DecidableEq

/-- Function `validate_overlay_payload(data, zone_type)` from helpers/overlay_validator.py:
sequential rules, first failing rule returns `(False, message)`, otherwise
`(True, None)`. -/
def validate_overlay_payload (setting : OverlaySetting) (zone_type : String) :
    Bool × Option String :=
  if zone_type = "HOT_WATER" ∧ setting.power = some "ON" ∧ setting.temperature = none then
    (false, some "temperature required for HOT_WATER with power=ON")
  else if zone_type = "HEATING" ∧ setting.power = some "ON" ∧ setting.temperature = none then
    (false, some "temperature required for HEATING with power=ON")
  else if zone_type = "AIR_CONDITIONING" ∧ setting.power = some "ON" ∧
      setting.temperature = none then
    (false, some "temperature required for AIR_CONDITIONING with power=ON")
  else if zone_type = "AIR_CONDITIONING" ∧ setting.power = some "ON" ∧
      setting.mode = none then
    (false, some "mode required for AIR_CONDITIONING with power=ON")
  else (true, none)

/-! ### api_manager.py: outbound client calls -/

/-- The async client calls `_process_batch` and its helpers can issue
(tadoasync client surface used by helpers/api_manager.py).  `P` is the type of
a zone overlay payload, which the manager treats as an opaque dict. -/
inductive ApiCall (P : Type) where
  | setPresence (presence : String)
  | setChildLock (serial : String) (enabled : Bool)
  | setTemperatureOffset (serial : String) (offset : ℚ)
  | setAwayConfiguration (zone_id : Nat) (temp : ℚ)
  | setDazzleMode (zone_id : Nat) (enabled : Bool)
  | setEarlyStart (zone_id : Nat) (enabled : Bool)
  | setOpenWindowDetection (zone_id : Nat) (enabled : Bool)
  | identifyDevice (serial : String)
  | resetAllZonesOverlay (zone_ids : List Nat)
  | setAllZonesOverlay (entries : List (Nat × P))
deriving DecidableEq

/-- One iteration of the partition loop at the top of `_execute_zone_actions`:
a zone with `data is None` is appended to `resumes`, the rest to `overlays`
(as `{"room": zone_id, "overlay": data}` entries). -/
def zoneActionStep {P : Type} (acc : List Nat × List (Nat × P))
    (za : Nat × Option P) : List Nat × List (Nat × P) :=
  match za.2 with
  | none => (acc.1 ++ [za.1], acc.2)
  | some d => (acc.1, acc.2 ++ [(za.1, d)])

/-- The partition loop of `_execute_zone_actions`: walk the merged zone-action
map in order, building `resumes` and `overlays`. -/
def collectZoneActions {P : Type} (actions : List (Nat × Option P)) :
    List Nat × List (Nat × P) :=
  actions.foldl zoneActionStep ([], [])

/-- Method `_execute_zone_actions(actions)` from helpers/api_manager.py: partition the
merged map, then issue one bulk `reset_all_zones_overlay(resumes)` call when
`resumes` is nonempty and one bulk `set_all_zones_overlay(overlays)` call when
`overlays` is nonempty, in that order.  The returned list is the sequence of
outbound zone write calls. -/
def execute_zone_actions {P : Type} (actions : List (Nat × Option P)) :
    List (ApiCall P) :=
  let rz := collectZoneActions actions
  (if rz.1.isEmpty then [] else [ApiCall.resetAllZonesOverlay rz.1]) ++
    (if rz.2.isEmpty then [] else [ApiCall.setAllZonesOverlay rz.2])

/-! ### quota_math.py: calculate_remaining_polling_budget -/

/-- Function `calculate_remaining_polling_budget` from helpers/quota_math.py (the body of
`TadoDataUpdateCoordinator._get_remaining_polling_budget` is the same formula
with the coordinator's own fields as arguments).  Python float arithmetic is
embedded as exact ℚ arithmetic; `SECONDS_PER_DAY = 86400`. -/
def calculate_remaining_polling_budget (limit remaining background_cost_24h
    throttle_threshold auto_quota_percent seconds_until_reset : ℚ) : ℚ :=
  let progress_done := (86400 - seconds_until_reset) / 86400
  let progress_remaining := seconds_until_reset / 86400
  let expected_background_so_far := background_cost_24h * progress_done
  let actual_used_total := max 0 (limit - remaining)
  let user_calls_so_far := max 0 (actual_used_total - expected_background_so_far)
  let user_excess := max 0 (user_calls_so_far - throttle_threshold)
  let available_for_day := max 0 (limit - background_cost_24h - user_excess)
  let total_auto_quota_budget := available_for_day * auto_quota_percent / 100
  max 0 (total_auto_quota_budget * progress_remaining)

/-! ### api_manager.py: per-key debounce (queue_command and the debounce timers)

State of `TadoApiManager` relevant to debouncing: `_action_queue` (the
pending-command map, one slot per key), `_pending_timers` (embedded as the
absolute time at which the currently scheduled timer for a key fires; a
cancelled timer is removed), and `_api_queue` (the ready FIFO the worker
drains).  `async_call_later(debounce)` becomes "timer fires at now + debounce";
cancelling pops the entry so the old timer can never fire. -/

/-- Pointwise dict assignment / `pop`: `setKey f k v` is `f` with slot `k`
set to `v` (`v = none` models `pop`). -/
def setKey {α : Type} (f : String → Option α) (k : String) (v : Option α) :
    String → Option α :=
  fun k2 => if k2 = k then v else f k2

/-- Debounce state of `TadoApiManager` (`Cmd` is the opaque `TadoCommand`). -/
structure DebounceState (Cmd : Type) where
  actionQueue : String → Option Cmd
  timerFire : String → Option Nat
  ready : List Cmd

/-- Method `queue_command(key, command)` called at absolute time `t`
(helpers/api_manager.py lines 50-82): cancel (pop) any pending timer for this
key, overwrite the pending command, and schedule a fresh timer that fires at
`t + debounce`. -/
def queue_command {Cmd : Type} (debounce : Nat) (t : Nat) (key : String)
    (cmd : Cmd) (s : DebounceState Cmd) : DebounceState Cmd :=
  { actionQueue := setKey s.actionQueue key (some cmd)
    timerFire := setKey s.timerFire key (some (t + debounce))
    ready := s.ready }

/-- The `_move_to_worker` callback, observed at absolute time `t`: a timer for
`key` may only deliver once the wall clock has reached its scheduled fire time
(a timer cancelled by `queue_command` was popped, so it never delivers).  On
delivery it pops the timer handle and the pending command and appends the
command to the ready FIFO. -/
def fire_timer {Cmd : Type} (t : Nat) (key : String) (s : DebounceState Cmd) :
    DebounceState Cmd :=
  match s.timerFire key with
  | none => s
  | some ft =>
    if ft ≤ t then
      match s.actionQueue key with
      | none => { s with timerFire := setKey s.timerFire key none }
      | some cmd =>
        { actionQueue := setKey s.actionQueue key none
          timerFire := setKey s.timerFire key none
          ready := s.ready ++ [cmd] }
    else s

/-- An event acting on the debounce state: a `queue_command` call or a timer
delivery attempt, each stamped with the absolute time it happens at. -/
inductive DebEvent (Cmd : Type) where
  | submit (t : Nat) (key : String) (cmd : Cmd)
  | fire (t : Nat) (key : String)

/-- One event step. -/
def debStep {Cmd : Type} (debounce : Nat) (s : DebounceState Cmd) :
    DebEvent Cmd → DebounceState Cmd
  | .submit t key cmd => queue_command debounce t key cmd s
  | .fire t key => fire_timer t key s

/-- Run a list of events. -/
def debRun {Cmd : Type} (debounce : Nat) (s : DebounceState Cmd)
    (evs : List (DebEvent Cmd)) : DebounceState Cmd :=
  evs.foldl (debStep debounce) s

/-- An event is harmless for key `k` whose pending timer is scheduled at
`deadline`: it concerns another key, or it is a delivery attempt for `k`
strictly before `deadline` (i.e. before the scheduled timer fires, hence a
no-op). -/
def harmless {Cmd : Type} (k : String) (deadline : Nat) : DebEvent Cmd → Bool
  | .submit _ k2 _ => k2 ≠ k
  | .fire t k2 => k2 ≠ k || t < deadline

/-- The scenario of the claim: a sequence of `queue_command` calls for the same
key `k`, each given as (call time, command, events happening after this call
and before the next one). -/
def debScenario {Cmd : Type} (debounce : Nat) (k : String)
    (s : DebounceState Cmd) :
    List (Nat × Cmd × List (DebEvent Cmd)) → DebounceState Cmd
  | [] => s
  | (t, c, mids) :: rest =>
    debScenario debounce k (debRun debounce (queue_command debounce t k c s) mids) rest

/-! ### Time-of-day helpers and the reduced window (coordinator.py) -/

/-- A parsed reduced-window configuration
(`TadoDataUpdateCoordinator._get_reduced_window_config`). -/
structure ReducedConf where
  start_h : Nat
  start_m : Nat
  end_h : Nat
  end_m : Nat
  interval : Int
deriving DecidableEq

/-- The `datetime.time()` of an instant given as absolute seconds, at second
granularity. -/
def timeOfDay (d : Nat) : Nat := d % 86400

/-- Method `_is_in_reduced_window(dt, conf)` from coordinator.py: compare the
time-of-day of `dt` against the window times built from the configured
hour/minute pairs, with wraparound across midnight. -/
def is_in_reduced_window (d : Nat) (conf : ReducedConf) : Bool :=
  let t := timeOfDay d
  let start := conf.start_h * 3600 + conf.start_m * 60
  let stop := conf.end_h * 3600 + conf.end_m * 60
  if start ≤ stop then decide (start ≤ t ∧ t ≤ stop)
  else decide (t ≥ start ∨ t ≤ stop)

/-! ### Rate limit state (helpers/rate_limit_manager.py is not in the provided
sources; its operations are modelled from the spec, Section 4.1). -/

/-- Rate-limit state tracked by the coordinator (`RateBudget` in the spec). -/
structure RateLimitState where
  limit : Int
  remaining : Int
  throttle_threshold : Int
deriving DecidableEq

/-- Modelled from the spec: `sync_from_response(limit, remaining)` of the
missing rate_limit_manager.py "overwrites both fields unconditionally
(authoritative)"; the coordinator calls it as `sync_from_headers()` reading the
last response's quota headers. -/
def sync_from_headers (rl : RateLimitState) (header_limit header_remaining : Int) :
    RateLimitState :=
  { rl with limit := header_limit, remaining := header_remaining }

/-- Modelled from the spec: `decrement(n)` of the missing rate_limit_manager.py
is a "local heuristic subtraction ...; never decreases below 0". -/
def rl_decrement (rl : RateLimitState) (n : Nat) : RateLimitState :=
  { rl with remaining := max 0 (rl.remaining - (n : Int)) }

/-- Modelled from the spec: the `is_throttled` derived boolean of the missing
rate_limit_manager.py satisfies `is_throttled ⇔ remaining ≤ throttle_threshold`. -/
def rl_is_throttled (rl : RateLimitState) : Bool :=
  rl.remaining ≤ rl.throttle_threshold

/-! ### coordinator.py: the interval scheduler -/

/-- The inputs `_calculate_auto_quota_interval` and its helpers read from the
coordinator.  `now` and `next_reset` are absolute seconds (`dt_util.now()` and
`_get_next_reset_time()`, with `now < next_reset` by construction of the
latter); `seconds_until_reset` is their difference.  `background_cost_24h` and
`predicted_poll_cost` stand for `data_manager.estimate_daily_reserved_cost()`
and `data_manager._measure_zones_poll_cost()` (data-dependent values, abstract
here).  `min_auto_quota_interval_s` and `min_proxy_interval_s` are the
constants `MIN_AUTO_QUOTA_INTERVAL_S` and `MIN_PROXY_INTERVAL_S` of const.py
(file not in the provided sources, hence kept abstract). -/
structure QuotaEnv where
  rate_limit : RateLimitState
  disable_polling_when_throttled : Bool
  is_reduced_polling_logic_enabled : Bool
  reduced_conf : Option ReducedConf
  auto_quota_percent : Int
  base_scan_interval : Int
  has_proxy : Bool
  now : Nat
  next_reset : Nat
  background_cost_24h : ℚ
  predicted_poll_cost : ℚ
  min_auto_quota_interval_s : Nat
  min_proxy_interval_s : Nat

/-- The `while` loop of the 0-interval pause branch of
`_calculate_auto_quota_interval`: starting from `now + 1 minute`, step in
15-minute increments while still inside the reduced window and before the next
reset.  Terminates because each step moves 900 s closer to `next_reset`. -/
def pauseLoopEnd (conf : ReducedConf) (next_reset : Nat) (test_dt : Nat) : Nat :=
  if h : is_in_reduced_window test_dt conf = true ∧ test_dt < next_reset then
    pauseLoopEnd conf next_reset (test_dt + 900)
  else test_dt
termination_by next_reset - test_dt
decreasing_by omega

/-- The chunked walk shared by `_calculate_weighted_interval` (coordinator.py)
and `calculate_weighted_interval` (quota_math.py): from `test_dt` up to
`next_reset`, classify each chunk's start instant as reduced or normal and add
the chunk size (`max(minChunk, min(3600, seconds left))`) to the matching
bucket.  Terminates because the chunk is at least 1 s whenever
`test_dt < next_reset`. -/
def walkChunks (minChunk : Nat) (next_reset : Nat) (conf : ReducedConf)
    (test_dt normal reduced : Nat) : Nat × Nat :=
  if h : test_dt < next_reset then
    let chunk := max minChunk (min 3600 (next_reset - test_dt))
    if is_in_reduced_window test_dt conf then
      walkChunks minChunk next_reset conf (test_dt + chunk) normal (reduced + chunk)
    else
      walkChunks minChunk next_reset conf (test_dt + chunk) (normal + chunk) reduced
  else (normal, reduced)
termination_by next_reset - test_dt
decreasing_by
  all_goals
    have h1 : 1 ≤ min 3600 (next_reset - test_dt) := by omega
    omega

/-- Method `_calculate_weighted_interval` from coordinator.py lines 560-613 (the
quota_math.py `calculate_weighted_interval` is the same computation with the
chunk walk inlined and no `conf is None` case).  The `try/except` only has one
possible exception source in this arithmetic: the float division
`normal_budget / predicted_cost` raising `ZeroDivisionError` when the predicted
cost is zero; that path returns the `except` fallback
`int(max(min_floor, SECONDS_PER_HOUR))`.  `int()` on the nonnegative result is
`Int.floor`. -/
def calculate_weighted_interval (minChunk : Nat) (now next_reset : Nat)
    (conf? : Option ReducedConf) (predicted_cost : ℚ) (remaining_budget : ℚ)
    (min_floor : Nat) : Int :=
  match conf? with
  | none => 3600
  | some conf =>
    let ns_rs := walkChunks minChunk next_reset conf now 0 0
    let normal_seconds : ℚ := (ns_rs.1 : ℚ)
    let reduced_seconds : ℚ := (ns_rs.2 : ℚ)
    let reduced_interval := conf.interval
    let reduced_budget_cost : ℚ :=
      if reduced_interval = 0 then 0
      else reduced_seconds / (reduced_interval : ℚ) * predicted_cost
    let normal_budget := max 0 (remaining_budget - reduced_budget_cost)
    if 0 < normal_budget then
      if predicted_cost = 0 then max (min_floor : Int) 3600
      else
        let normal_polls := normal_budget / predicted_cost
        if 0 < normal_polls then
          let cap : ℚ := if 0 < reduced_interval then (reduced_interval : ℚ) else 3600
          Int.floor (max (min_floor : ℚ) (min cap (normal_seconds / normal_polls)))
        else 3600
    else 3600

/-- Step 2 of `_calculate_auto_quota_interval` (the economy window): returns
`some interval` when the branch returns, `none` when control falls through to
the auto-quota logic.  A `None` from `_get_reduced_window_config` (config parse
failure) falls through. -/
def reducedWindowBranch (e : QuotaEnv) : Option Int :=
  if e.is_reduced_polling_logic_enabled then
    match e.reduced_conf with
    | some conf =>
      if is_in_reduced_window e.now conf then
        if conf.interval = 0 then
          let test_dt := pauseLoopEnd conf e.next_reset (e.now + 60)
          some (max (e.min_auto_quota_interval_s : Int) ((test_dt - e.now : Nat) : Int))
        else some conf.interval
      else none
    | none => none
  else none

/-- Method `_calculate_auto_quota_interval` from coordinator.py lines 485-558.
`Except.error ()` marks the one uncaught exception of the body (the unguarded
float division `remaining_budget / predicted_cost` in the
no-reduced-weighting branch when the predicted cost is zero); `.ok none` is the
Python `None` (callers fall back to the base scan interval). -/
def calculate_auto_quota_interval (e : QuotaEnv) : Except Unit (Option Int) :=
  if e.rate_limit.limit ≤ 0 then .ok none
  else
    let seconds_until_reset : Int := ((e.next_reset - e.now : Nat) : Int)
    if rl_is_throttled e.rate_limit then
      if e.disable_polling_when_throttled then .ok (some (max 3600 seconds_until_reset))
      else .ok (some 3600)
    else
      match reducedWindowBranch e with
      | some r => .ok (some r)
      | none =>
        if e.auto_quota_percent ≤ 0 then .ok none
        else
          let min_floor : Nat :=
            if e.has_proxy then e.min_proxy_interval_s else e.min_auto_quota_interval_s
          let remaining_budget :=
            calculate_remaining_polling_budget (e.rate_limit.limit : ℚ)
              (e.rate_limit.remaining : ℚ) e.background_cost_24h
              (e.rate_limit.throttle_threshold : ℚ) (e.auto_quota_percent : ℚ)
              ((e.next_reset - e.now : Nat) : ℚ)
          if remaining_budget ≤ 0 then
            .ok (if 0 < e.base_scan_interval then some (max e.base_scan_interval 300)
                 else none)
          else if !e.is_reduced_polling_logic_enabled then
            if e.predicted_poll_cost = 0 then .error ()
            else
              let remaining_polls := remaining_budget / e.predicted_poll_cost
              if remaining_polls ≤ 0 then .ok (some 3600)
              else
                let adaptive := (seconds_until_reset : ℚ) / remaining_polls
                .ok (some (Int.floor (max (min_floor : ℚ) (min 3600 adaptive))))
          else
            .ok (some (calculate_weighted_interval e.min_auto_quota_interval_s e.now
              e.next_reset e.reduced_conf e.predicted_poll_cost remaining_budget
              min_floor))

/-- Modelled from the spec: `apply_jitter` of the missing helpers/utils.py
perturbs the interval "by ± a configured percentage (uniform)"; the uniform
draw is abstracted as a factor `u ∈ [-1, 1]`. -/
def apply_jitter (interval : ℚ) (jitter_percent : ℚ) (u : ℚ) : ℚ :=
  interval * (1 + jitter_percent / 100 * u)

/-- Method `_adjust_interval_for_auto_quota` from coordinator.py lines 615-637: a
`None` calculated interval falls back to the base scan interval (or no
automatic polling); otherwise jitter is applied exactly when an API proxy URL
is configured, and the result becomes the new update interval.  The returned
value is the new `update_interval` in seconds (`none` = no automatic polling);
an exception in the calculation propagates. -/
def adjust_interval_for_auto_quota (e : QuotaEnv) (jitter_percent u : ℚ) :
    Except Unit (Option ℚ) :=
  match calculate_auto_quota_interval e with
  | .error () => .error ()
  | .ok none =>
    .ok (if 0 < e.base_scan_interval then some ((e.base_scan_interval : ℚ)) else none)
  | .ok (some ci) =>
    if e.has_proxy then .ok (some (apply_jitter (ci : ℚ) jitter_percent u))
    else .ok (some ((ci : ℚ)))

/-! ### coordinator.py: the gating prologue of _async_update_data and the
daily reset poll timer -/

/-- The coordinator fields read by the gating prologue of
`_async_update_data` (coordinator.py lines 367-404).  `has_data` is
`bool(self.data)` (a cached `TadoData` exists). -/
structure UpdateGateEnv where
  is_polling_enabled : Bool
  has_data : Bool
  is_reduced_polling_logic_enabled : Bool
  reduced_conf : Option ReducedConf
  now : Nat
  disable_polling_when_throttled : Bool
  rate_limit : RateLimitState
  force_next_update : Bool
deriving DecidableEq

/-- Outcome of the prologue: return the cached data without any API call, or
proceed to the actual fetch. -/
inductive UpdateDecision where
  | returnCached
  | fetch
deriving DecidableEq

/-- The zero-interval reduced-window guard inside `_async_update_data`:
reduced logic enabled, window config parses, its interval is 0, `now` is inside
the window, and cached data exists. -/
def zeroWindowSkip (e : UpdateGateEnv) : Bool :=
  e.is_reduced_polling_logic_enabled &&
    (match e.reduced_conf with
     | some conf => decide (conf.interval = 0) && is_in_reduced_window e.now conf
        && e.has_data
     | none => false)

/-- The gating prologue of `_async_update_data`, in source order: (1) polling
globally disabled and data cached → return cached; (2) inside a zero-interval
reduced window with data cached → return cached; (3) throttled with
disable-polling-when-throttled, not forced, and data cached → return cached;
otherwise proceed to fetch (clearing the force flag). -/
def update_data_gate (e : UpdateGateEnv) : UpdateDecision :=
  if !e.is_polling_enabled && e.has_data then .returnCached
  else if zeroWindowSkip e then .returnCached
  else if e.disable_polling_when_throttled && rl_is_throttled e.rate_limit
      && !e.force_next_update && e.has_data then .returnCached
  else .fetch

/-- Method `_on_reset_poll` (coordinator.py lines 661-669) together with the
`_schedule_reset_poll` guard (lines 639-641): the one-shot reset timer sets
`_force_next_update = True`, triggers a refresh (whose prologue decision is the
first component), and then calls `_schedule_reset_poll` again, which re-arms
the timer exactly when the auto quota percent is positive (second component). -/
def on_reset_poll (e : UpdateGateEnv) (auto_quota_percent : Int) :
    UpdateDecision × Bool :=
  (update_data_gate { e with force_next_update := true },
   decide (0 < auto_quota_percent))

/-! ### api_manager.py: batch processing (_process_batch, _worker_loop)

`CommandMerger` (helpers/command_merger.py) is not in the provided sources;
`_process_batch` is therefore modelled from its merged result onward, the
shape of which is fixed by the `merged[...]` accesses in api_manager.py.
`ncommands` stands for `len(commands)` of the incoming batch. -/

/-- The merged batch produced by `CommandMerger.result` as consumed by
`_process_batch`. -/
structure MergedResult (P : Type) where
  presence : Option String
  child_lock : List (String × Bool)
  offsets : List (String × ℚ)
  away_temps : List (Nat × ℚ)
  dazzle_modes : List (Nat × Bool)
  early_starts : List (Nat × Bool)
  open_windows : List (Nat × Bool)
  identifies : List String
  zones : List (Nat × Option P)
  manual_poll : Option String

/-- Observable side effects of `_process_batch`: an attempted remote call with
its outcome (a failed call is caught and logged by the per-call
`try/except` and processing continues), the rate-limit resync
(`update_rate_limit_local`), the manual poll (`_execute_manual_poll`), the
heuristic decrement, and — as a vocabulary item that the code could emit but
never does — restoring a command's `rollback_context` onto the optimistic
overlay or the patched read state. -/
inductive Effect (P : Type) where
  | call (c : ApiCall P) (failed : Bool)
  | syncRateLimit
  | manualPoll (refresh_type : String)
  | decrementRate (n : Nat)
  | rollback
deriving DecidableEq

/-- Attempt one remote call under a failure oracle (the oracle says which calls
the remote client fails with an exception; the surrounding `try/except` turns
the exception into a logged failure). -/
def callEff {P : Type} (oracle : ApiCall P → Bool) (c : ApiCall P) : Effect P :=
  .call c (oracle c)

/-- Method `_process_batch(commands)` from helpers/api_manager.py lines 118-165, from
the merged result onward: execute presence, child locks, offsets, away temps,
dazzle, early start, open window, identify and the bulk zone actions in source
order (each remote call individually wrapped in `try/except`), then
`update_rate_limit_local` (resync from headers), then either the manual poll
or — exactly when the synced budget is throttled — `decrement(len(commands))`.
Returns the effect trace and the resulting rate-limit state. -/
def process_batch {P : Type} (oracle : ApiCall P → Bool) (m : MergedResult P)
    (ncommands : Nat) (rl : RateLimitState) (headers : Int × Int) :
    List (Effect P) × RateLimitState :=
  let presenceEffs : List (Effect P) :=
    match m.presence with
    | some p => [callEff oracle (.setPresence p)]
    | none => []
  let clEffs := m.child_lock.map (fun a => callEff oracle (.setChildLock a.1 a.2))
  let offEffs := m.offsets.map (fun a => callEff oracle (.setTemperatureOffset a.1 a.2))
  let awayEffs := m.away_temps.map (fun a => callEff oracle (.setAwayConfiguration a.1 a.2))
  let dazEffs := m.dazzle_modes.map (fun a => callEff oracle (.setDazzleMode a.1 a.2))
  let esEffs := m.early_starts.map (fun a => callEff oracle (.setEarlyStart a.1 a.2))
  let owEffs := m.open_windows.map (fun a => callEff oracle (.setOpenWindowDetection a.1 a.2))
  let idEffs := m.identifies.map (fun a => callEff oracle (.identifyDevice a))
  let zoneEffs := (execute_zone_actions m.zones).map (callEff oracle)
  let rl1 := sync_from_headers rl headers.1 headers.2
  let tail : List (Effect P) × RateLimitState :=
    match m.manual_poll with
    | some t => ([Effect.manualPoll t], rl1)
    | none =>
      if rl_is_throttled rl1 then
        ([Effect.decrementRate ncommands], rl_decrement rl1 ncommands)
      else ([], rl1)
  (presenceEffs ++ clEffs ++ offEffs ++ awayEffs ++ dazEffs ++ esEffs ++ owEffs ++
     idEffs ++ zoneEffs ++ [Effect.syncRateLimit] ++ tail.1, tail.2)

/-- One batch as pulled and drained by `_worker_loop`: the merged result, the
number of commands in the batch, and the quota headers the remote responses of
this batch leave behind. -/
structure WorkerBatch (P : Type) where
  merged : MergedResult P
  ncommands : Nat
  headers : Int × Int

/-- Method `_worker_loop` from helpers/api_manager.py lines 84-116, as the sequential
processing of the successive batches it forms: `_process_batch` catches remote
errors per sub-action, so a failing sub-action never aborts the loop and every
subsequent batch is still processed. -/
def worker_loop {P : Type} (oracle : ApiCall P → Bool) (rl : RateLimitState) :
    List (WorkerBatch P) → List (Effect P) × RateLimitState
  | [] => ([], rl)
  | b :: rest =>
    let r1 := process_batch oracle b.merged b.ncommands rl b.headers
    let r2 := worker_loop oracle r1.2 rest
    (r1.1 ++ r2.1, r2.2)

/-- Erase the failure flags of an effect trace, keeping which calls were
attempted. -/
def stripFail {P : Type} : Effect P → Effect P
  | .call c _ => .call c false
  | e => e

/-- Recognize the (never emitted) rollback effect. -/
def isRollback {P : Type} : Effect P → Bool
  | .rollback => true
  | _ => false

/-- Recognize a heuristic decrement effect. -/
def isDecrement {P : Type} : Effect P → Bool
  | .decrementRate _ => true
  | _ => false

/-! ## Theorems -/

/-! ### C10: overlay payload validation -/

/-- C10: `validate_overlay_payload` is total (it is a Lean function, so it
never raises) and: it returns `(True, None)` for every payload whose setting
power is not `"ON"`, for every zone type; for `HOT_WATER` and `HEATING` with
power `"ON"` it is invalid exactly when the temperature is absent; for
`AIR_CONDITIONING` with power `"ON"` it is invalid exactly when the
temperature or the mode is absent; any other zone type is always valid; and an
invalid result always carries a message. -/
theorem validate_overlay_payload_total_characterization
    (s : OverlaySetting) (zt : String) :
    (s.power ≠ some "ON" → validate_overlay_payload s zt = (true, none)) ∧
    ((zt = "HOT_WATER" ∨ zt = "HEATING") → s.power = some "ON" →
      ((validate_overlay_payload s zt).1 = false ↔ s.temperature = none)) ∧
    (zt = "AIR_CONDITIONING" → s.power = some "ON" →
      ((validate_overlay_payload s zt).1 = false ↔
        (s.temperature = none ∨ s.mode = none))) ∧
    (zt ≠ "HOT_WATER" → zt ≠ "HEATING" → zt ≠ "AIR_CONDITIONING" →
      validate_overlay_payload s zt = (true, none)) ∧
    ((validate_overlay_payload s zt).1 = false →
      ((validate_overlay_payload s zt).2).isSome = true) := by
  unfold validate_overlay_payload
  refine ⟨fun hp => ?_, fun hzt hp => ?_, fun hzt hp => ?_,
    fun h1 h2 h3 => ?_, fun hf => ?_⟩ <;>
    split_ifs <;> simp_all <;> tauto

/-- Witness for C10 at a concrete input: a `HEATING` zone with power `ON` and
no temperature is rejected. -/
theorem validate_overlay_payload_witness :
    ((⟨some "ON", none, none⟩ : OverlaySetting).power = some "ON") ∧
    ((validate_overlay_payload ⟨some "ON", none, none⟩ "HEATING").1 = false ↔
      (⟨some "ON", none, none⟩ : OverlaySetting).temperature = none) :=
  ⟨rfl,
   (validate_overlay_payload_total_characterization
      ⟨some "ON", none, none⟩ "HEATING").2.1 (Or.inr rfl) rfl⟩

/-! ### C2: bulk zone dispatch -/

theorem foldl_zoneActionStep {P : Type} (actions : List (Nat × Option P)) :
    ∀ acc : List Nat × List (Nat × P),
      actions.foldl zoneActionStep acc =
        (acc.1 ++ (actions.filter fun za => za.2.isNone).map Prod.fst,
         acc.2 ++ actions.filterMap fun za => za.2.map fun d => (za.1, d)) := by
  induction actions with
  | nil => intro acc; simp
  | cons hd tl ih =>
    intro acc
    rcases hd with ⟨z, d⟩
    cases d with
    | none => simp [zoneActionStep, ih, List.filter_cons]
    | some v => simp [zoneActionStep, ih, List.filter_cons]

theorem collectZoneActions_eq {P : Type} (actions : List (Nat × Option P)) :
    collectZoneActions actions =
      ((actions.filter fun za => za.2.isNone).map Prod.fst,
       actions.filterMap fun za => za.2.map fun d => (za.1, d)) := by
  simpa [collectZoneActions] using foldl_zoneActionStep actions ([], [])

/-- C2: executing a merged zone-action map with `N` resume entries
(`payload = None`) and `M` overlay entries issues exactly two outbound zone
write calls when `N, M > 0` — one `reset_all_zones_overlay` carrying all `N`
resume zone ids and one `set_all_zones_overlay` carrying all `M` overlay
entries, independent of `N` and `M` — and when `N = 0` (resp. `M = 0`) the
corresponding bulk call is omitted entirely. -/
theorem bulk_dispatch_two_calls {P : Type} (actions : List (Nat × Option P)) :
    (((actions.filter fun za => za.2.isNone).map Prod.fst).length ≠ 0 →
     (actions.filterMap fun za => za.2.map fun d => (za.1, d)).length ≠ 0 →
      execute_zone_actions actions =
        [ApiCall.resetAllZonesOverlay ((actions.filter fun za => za.2.isNone).map Prod.fst),
         ApiCall.setAllZonesOverlay (actions.filterMap fun za => za.2.map fun d => (za.1, d))] ∧
      (execute_zone_actions actions).length = 2) ∧
    (((actions.filter fun za => za.2.isNone).map Prod.fst).length = 0 →
      execute_zone_actions actions =
        if (actions.filterMap fun za => za.2.map fun d => (za.1, d)).isEmpty then []
        else [ApiCall.setAllZonesOverlay
          (actions.filterMap fun za => za.2.map fun d => (za.1, d))]) ∧
    ((actions.filterMap fun za => za.2.map fun d => (za.1, d)).length = 0 →
      execute_zone_actions actions =
        if ((actions.filter fun za => za.2.isNone).map Prod.fst).isEmpty then []
        else [ApiCall.resetAllZonesOverlay
          ((actions.filter fun za => za.2.isNone).map Prod.fst)]) := by
  refine ⟨fun hN hM => ?_, fun hN => ?_, fun hM => ?_⟩
  · simp only [execute_zone_actions, collectZoneActions_eq]
    rw [if_neg (by simpa [List.isEmpty_iff_length_eq_zero] using hN),
      if_neg (by simpa [List.isEmpty_iff_length_eq_zero] using hM)]
    exact ⟨rfl, rfl⟩
  · rw [List.length_eq_zero] at hN
    simp only [execute_zone_actions, collectZoneActions_eq, hN]
    simp
  · rw [List.length_eq_zero] at hM
    simp only [execute_zone_actions, collectZoneActions_eq, hM]
    simp

/-- Witness for C2 at a concrete input: one resume and one overlay entry
produce exactly the two bulk calls. -/
theorem bulk_dispatch_two_calls_witness :
    execute_zone_actions [(1, none), (2, some (5 : ℚ))] =
      [ApiCall.resetAllZonesOverlay [1], ApiCall.setAllZonesOverlay [(2, (5 : ℚ))]] ∧
    (execute_zone_actions [(1, (none : Option ℚ)), (2, some 5)]).length = 2 :=
  (bulk_dispatch_two_calls [(1, none), (2, some (5 : ℚ))]).1
    (by decide) (by decide)

/-! ### C5: budget monotonicity and non-negativity -/

theorem max_zero_mono {x y : ℚ} (h : x ≤ y) : max 0 x ≤ max 0 y :=
  max_le_max le_rfl h

theorem max_zero_add_le (x c : ℚ) (hc : 0 ≤ c) : max 0 (x + c) ≤ max 0 x + c := by
  apply max_le
  · have := le_max_left (0 : ℚ) x
    linarith
  · have := le_max_right (0 : ℚ) x
    linarith

theorem calc_budget_closed_form (limit remaining bg th p s : ℚ) :
    calculate_remaining_polling_budget limit remaining bg th p s =
      max 0 (max 0 (limit - bg -
          max 0 (max 0 (max 0 (limit - remaining) - bg * ((86400 - s) / 86400)) - th))
        * p / 100 * (s / 86400)) := rfl

/-- C5: with `limit, remaining, throttle_threshold, auto_quota_percent ≥ 0` and
`seconds_until_reset ∈ [0, 86400]` fixed, `calculate_remaining_polling_budget`
is non-increasing in `background_cost_24h`, non-decreasing in
`auto_quota_percent`, and always nonnegative. -/
theorem budget_monotone_nonneg (limit remaining throttle_threshold
    seconds_until_reset : ℚ)
    (hl : 0 ≤ limit) (hr : 0 ≤ remaining) (hth : 0 ≤ throttle_threshold)
    (hs0 : 0 ≤ seconds_until_reset) (hs1 : seconds_until_reset ≤ 86400) :
    (∀ p b1 b2, 0 ≤ p → b1 ≤ b2 →
      calculate_remaining_polling_budget limit remaining b2 throttle_threshold p
          seconds_until_reset ≤
        calculate_remaining_polling_budget limit remaining b1 throttle_threshold p
          seconds_until_reset) ∧
    (∀ b p1 p2, 0 ≤ p1 → p1 ≤ p2 →
      calculate_remaining_polling_budget limit remaining b throttle_threshold p1
          seconds_until_reset ≤
        calculate_remaining_polling_budget limit remaining b throttle_threshold p2
          seconds_until_reset) ∧
    (∀ b p, 0 ≤ calculate_remaining_polling_budget limit remaining b
        throttle_threshold p seconds_until_reset) := by
  have hpd0 : 0 ≤ (86400 - seconds_until_reset) / 86400 := by
    apply div_nonneg <;> linarith
  have hpd1 : (86400 - seconds_until_reset) / 86400 ≤ 1 := by
    rw [div_le_one (by norm_num : (0:ℚ) < 86400)]
    linarith
  have hpr0 : 0 ≤ seconds_until_reset / 86400 := by
    apply div_nonneg <;> linarith
  refine ⟨fun p b1 b2 hp hb => ?_, fun b p1 p2 hp1 hp12 => ?_, fun b p => ?_⟩
  · rw [calc_budget_closed_form, calc_budget_closed_form]
    set pd := (86400 - seconds_until_reset) / 86400 with hpdDef
    set pr := seconds_until_reset / 86400 with hprDef
    set A := max 0 (limit - remaining) with hADef
    have hδ0 : 0 ≤ (b2 - b1) * pd := mul_nonneg (by linarith) hpd0
    have h1 : max 0 (A - b1 * pd) ≤ max 0 (A - b2 * pd) + (b2 - b1) * pd := by
      have he : A - b1 * pd = A - b2 * pd + (b2 - b1) * pd := by ring
      rw [he]
      exact max_zero_add_le _ _ hδ0
    have h2 : max 0 (max 0 (A - b1 * pd) - throttle_threshold) ≤
        max 0 (max 0 (A - b2 * pd) - throttle_threshold) + (b2 - b1) * pd := by
      calc max 0 (max 0 (A - b1 * pd) - throttle_threshold)
          ≤ max 0 (max 0 (A - b2 * pd) + (b2 - b1) * pd - throttle_threshold) :=
            max_zero_mono (by linarith)
        _ = max 0 (max 0 (A - b2 * pd) - throttle_threshold + (b2 - b1) * pd) := by
            congr 1
            ring
        _ ≤ max 0 (max 0 (A - b2 * pd) - throttle_threshold) + (b2 - b1) * pd :=
            max_zero_add_le _ _ hδ0
    have hδ1 : (b2 - b1) * pd ≤ b2 - b1 :=
      mul_le_of_le_one_right (by linarith) hpd1
    have h3 : limit - b2 - max 0 (max 0 (A - b2 * pd) - throttle_threshold) ≤
        limit - b1 - max 0 (max 0 (A - b1 * pd) - throttle_threshold) := by
      linarith
    have h4 := max_zero_mono h3
    have h5 := mul_le_mul_of_nonneg_right h4 hp
    have h6 : max 0 (limit - b2 - max 0 (max 0 (A - b2 * pd) - throttle_threshold))
          * p / 100 ≤
        max 0 (limit - b1 - max 0 (max 0 (A - b1 * pd) - throttle_threshold))
          * p / 100 := by
      linarith
    exact max_zero_mono (mul_le_mul_of_nonneg_right h6 hpr0)
  · rw [calc_budget_closed_form, calc_budget_closed_form]
    set pd := (86400 - seconds_until_reset) / 86400 with hpdDef
    set pr := seconds_until_reset / 86400 with hprDef
    set A := max 0 (limit - remaining) with hADef
    have hE0 : 0 ≤ max 0 (limit - b - max 0 (max 0 (A - b * pd) - throttle_threshold)) :=
      le_max_left _ _
    have h5 := mul_le_mul_of_nonneg_left hp12 hE0
    have h6 : max 0 (limit - b - max 0 (max 0 (A - b * pd) - throttle_threshold))
          * p1 / 100 ≤
        max 0 (limit - b - max 0 (max 0 (A - b * pd) - throttle_threshold))
          * p2 / 100 := by
      rw [mul_comm _ p1, mul_comm _ p2] at *
      linarith
    exact max_zero_mono (mul_le_mul_of_nonneg_right h6 hpr0)
  · rw [calc_budget_closed_form]
    exact le_max_left _ _

/-- Witness for C5 at concrete inputs: with all fixed inputs nonnegative and
seconds-until-reset at half a day, raising the background cost from 0 to 10
does not raise the budget. -/
theorem budget_monotone_nonneg_witness :
    (0 : ℚ) ≤ 100 ∧
    calculate_remaining_polling_budget 100 50 10 10 50 43200 ≤
      calculate_remaining_polling_budget 100 50 0 10 50 43200 :=
  ⟨by norm_num,
   (budget_monotone_nonneg 100 50 10 43200 (by norm_num) (by norm_num)
      (by norm_num) (by norm_num) (by norm_num)).1 50 0 10 (by norm_num)
      (by norm_num)⟩

/-! ### C3: throttle branch has highest priority in the scheduler -/

/-- C3: whenever the quota limit is positive and the budget is throttled,
`_calculate_auto_quota_interval` returns `max(3600, seconds_until_reset)` when
disable-polling-when-throttled is set (hence ≥ 3600 and ≥ seconds-until-reset)
and exactly 3600 otherwise — for every configuration of the reduced-window and
auto-quota fields, i.e. the throttled branch takes precedence over both. -/
theorem throttled_branch_priority (e : QuotaEnv)
    (hlim : 0 < e.rate_limit.limit)
    (hthr : e.rate_limit.remaining ≤ e.rate_limit.throttle_threshold) :
    calculate_auto_quota_interval e =
      .ok (some (if e.disable_polling_when_throttled
        then max 3600 ((e.next_reset - e.now : Nat) : Int) else 3600)) ∧
    (∀ i, calculate_auto_quota_interval e = .ok (some i) →
      3600 ≤ i ∧
      (e.disable_polling_when_throttled = true →
        ((e.next_reset - e.now : Nat) : Int) ≤ i)) := by
  have ht : rl_is_throttled e.rate_limit = true := by
    simp [rl_is_throttled, hthr]
  have hne : ¬ e.rate_limit.limit ≤ 0 := by omega
  have heq : calculate_auto_quota_interval e =
      .ok (some (if e.disable_polling_when_throttled
        then max 3600 ((e.next_reset - e.now : Nat) : Int) else 3600)) := by
    unfold calculate_auto_quota_interval
    rw [if_neg hne, if_pos ht]
    cases e.disable_polling_when_throttled <;> simp
  refine ⟨heq, fun i hi => ?_⟩
  rw [heq] at hi
  cases hd : e.disable_polling_when_throttled <;> rw [hd] at hi <;>
    simp only [if_true, if_false, Except.ok.injEq, Option.some.injEq,
      Bool.false_eq_true] at hi
  · refine ⟨by omega, fun hc => ?_⟩
    simp_all
  · refine ⟨le_trans (le_max_left _ _) (le_of_eq hi), fun _ => ?_⟩
    exact le_trans (le_max_right _ _) (le_of_eq hi)

/-- Witness for C3 at a concrete input: a throttled environment (remaining 0 ≤
threshold 5) with suspend-on-throttle set and 7200 s until reset sleeps 7200 s,
even though it is inside an active zero-interval reduced window and auto quota
is enabled. -/
theorem throttled_branch_priority_witness :
    (0 : Int) < 100 ∧
    calculate_auto_quota_interval
      { rate_limit := ⟨100, 0, 5⟩
        disable_polling_when_throttled := true
        is_reduced_polling_logic_enabled := true
        reduced_conf := some ⟨23, 0, 6, 0, 0⟩
        auto_quota_percent := 50
        base_scan_interval := 600
        has_proxy := false
        now := 0
        next_reset := 7200
        background_cost_24h := 10
        predicted_poll_cost := 2
        min_auto_quota_interval_s := 300
        min_proxy_interval_s := 600 } = .ok (some 7200) := by
  refine ⟨by norm_num, ?_⟩
  have h := (throttled_branch_priority
    { rate_limit := ⟨100, 0, 5⟩
      disable_polling_when_throttled := true
      is_reduced_polling_logic_enabled := true
      reduced_conf := some ⟨23, 0, 6, 0, 0⟩
      auto_quota_percent := 50
      base_scan_interval := 600
      has_proxy := false
      now := 0
      next_reset := 7200
      background_cost_24h := 10
      predicted_poll_cost := 2
      min_auto_quota_interval_s := 300
      min_proxy_interval_s := 600 } (by norm_num) (by norm_num)).1
  simpa using h

/-! ### C4: the weighted reduced-window interval -/

/-- Counterexample to C4 as stated: with positive remaining budget 1, predicted
poll cost 5, a reduced window covering the whole day at its own interval 600
and `min_floor = 300`, the reduced window's own quota cost (30) exceeds the
budget, and `_calculate_weighted_interval` returns 3600 — outside the claimed
clamp range `[min_floor, reduced_interval] = [300, 600]`. -/
theorem weighted_interval_clamp_counterexample :
    (0 : ℚ) < 1 ∧ (300 : Nat) ≤ 600 ∧ (0 : Int) < 600 ∧
    calculate_weighted_interval 300 0 3600 (some ⟨0, 0, 23, 59, 600⟩) 5 1 300 = 3600 ∧
    decide ((3600 : Int) ≤ 600) = false := by
  refine ⟨by norm_num, by norm_num, by norm_num, ?_, by decide⟩
  have hw : walkChunks 300 3600 ⟨0, 0, 23, 59, 600⟩ 0 0 0 = (0, 3600) := by
    rw [walkChunks]
    norm_num [is_in_reduced_window, timeOfDay]
    rw [walkChunks]
    norm_num
  simp only [calculate_weighted_interval, hw]
  norm_num

/-- C4 as amended: for every quota state with positive remaining budget, after
partitioning the time until reset into normal and reduced seconds by chunked
walking and subtracting the reduced window's own fixed-interval quota cost from
the budget — IF the leftover normal budget is positive (and the predicted poll
cost is positive), the rest is spent evenly across normal-hour seconds and the
result is the even-spread interval clamped into
`[min_floor, reduced_interval or 3600]` (so it is ≥ `min_floor`, and ≤ the cap
whenever `min_floor` is); if the subtraction exhausts the budget the function
returns 3600 instead (even when that exceeds the cap — the counterexample);
and the only exception inside the computation (a zero predicted cost) returns
`max(min_floor, 3600)`. -/
theorem weighted_interval_amended (minChunk now next_reset min_floor : Nat)
    (c : ReducedConf) (pc budget ns rs cost nb cap : ℚ)
    (hbudget : 0 < budget)
    (hns : ns = ((walkChunks minChunk next_reset c now 0 0).1 : ℚ))
    (hrs : rs = ((walkChunks minChunk next_reset c now 0 0).2 : ℚ))
    (hcost : cost = if c.interval = 0 then 0 else rs / (c.interval : ℚ) * pc)
    (hnb : nb = max 0 (budget - cost))
    (hcap : cap = if 0 < c.interval then (c.interval : ℚ) else 3600) :
    (0 < nb → 0 < pc →
      calculate_weighted_interval minChunk now next_reset (some c) pc budget
          min_floor =
        Int.floor (max (min_floor : ℚ) (min cap (ns / (nb / pc)))) ∧
      (min_floor : Int) ≤
        calculate_weighted_interval minChunk now next_reset (some c) pc budget
          min_floor ∧
      ((min_floor : ℚ) ≤ cap →
        ((calculate_weighted_interval minChunk now next_reset (some c) pc budget
          min_floor : Int) : ℚ) ≤ cap)) ∧
    (nb = 0 →
      calculate_weighted_interval minChunk now next_reset (some c) pc budget
        min_floor = 3600) ∧
    (0 < nb → pc = 0 →
      calculate_weighted_interval minChunk now next_reset (some c) pc budget
        min_floor = max (min_floor : Int) 3600) := by
  simp only [calculate_weighted_interval]
  rw [← hns, ← hrs, ← hcost, ← hnb, ← hcap]
  refine ⟨fun h1 h2 => ?_, fun h0 => ?_, fun h1 h2 => ?_⟩
  · rw [if_pos h1, if_neg (ne_of_gt h2)]
    have hpolls : 0 < nb / pc := div_pos h1 h2
    rw [if_pos hpolls]
    refine ⟨rfl, ?_, fun hfc => ?_⟩
    · exact Int.le_floor.mpr (by exact_mod_cast le_max_left _ _)
    · calc ((Int.floor (max (min_floor : ℚ) (min cap (ns / (nb / pc)))) : Int) : ℚ)
          ≤ max (min_floor : ℚ) (min cap (ns / (nb / pc))) := Int.floor_le _
        _ ≤ cap := max_le hfc (min_le_left _ _)
  · rw [if_neg (by rw [h0]; exact lt_irrefl 0)]
  · rw [if_pos h1, if_pos h2]

/-- Witness for the amended C4 at concrete inputs: budget 10, predicted cost 5,
a one-hour horizon entirely outside an 08:00-09:00 reduced window with interval
600 and `min_floor = 300`: the even-spread interval 1800 is clamped down to the
cap 600. -/
theorem weighted_interval_amended_witness :
    (0 : ℚ) < 10 ∧
    calculate_weighted_interval 300 0 3600 (some ⟨8, 0, 9, 0, 600⟩) 5 10 300 = 600 := by
  have hw : walkChunks 300 3600 ⟨8, 0, 9, 0, 600⟩ 0 0 0 = (3600, 0) := by
    rw [walkChunks]
    norm_num [is_in_reduced_window, timeOfDay]
    rw [walkChunks]
    norm_num
  refine ⟨by norm_num, ?_⟩
  have h := (weighted_interval_amended 300 0 3600 300 ⟨8, 0, 9, 0, 600⟩ 5 10
      3600 0 0 10 600 (by norm_num)
      (by rw [hw]; norm_num)
      (by rw [hw]; norm_num)
      (by norm_num)
      (by norm_num)
      (by norm_num)).1 (by norm_num) (by norm_num)
  rw [h.1]
  norm_num

/-! ### C6: jitter scope -/

/-- Counterexample to C6 as stated: in a throttled environment with
disable-polling-when-throttled set, 7200 s until reset and an API proxy URL
configured, the scheduler computes the raw suspend-until-reset duration 7200,
and `_adjust_interval_for_auto_quota` applies jitter to it (draw `u = 1`,
jitter 10 % gives 7920 ≠ 7200) — so jitter IS applied to the raw
suspend-until-reset duration. -/
theorem jitter_on_suspend_counterexample :
    calculate_auto_quota_interval
      { rate_limit := ⟨100, 0, 5⟩
        disable_polling_when_throttled := true
        is_reduced_polling_logic_enabled := false
        reduced_conf := none
        auto_quota_percent := 50
        base_scan_interval := 600
        has_proxy := true
        now := 0
        next_reset := 7200
        background_cost_24h := 10
        predicted_poll_cost := 2
        min_auto_quota_interval_s := 300
        min_proxy_interval_s := 600 } = .ok (some 7200) ∧
    adjust_interval_for_auto_quota
      { rate_limit := ⟨100, 0, 5⟩
        disable_polling_when_throttled := true
        is_reduced_polling_logic_enabled := false
        reduced_conf := none
        auto_quota_percent := 50
        base_scan_interval := 600
        has_proxy := true
        now := 0
        next_reset := 7200
        background_cost_24h := 10
        predicted_poll_cost := 2
        min_auto_quota_interval_s := 300
        min_proxy_interval_s := 600 } 10 1 = .ok (some 7920) ∧
    decide ((7920 : ℚ) = ((7200 : Int) : ℚ)) = false := by
  refine ⟨?_, ?_, by norm_num⟩
  · norm_num [calculate_auto_quota_interval, rl_is_throttled]
  · norm_num [adjust_interval_for_auto_quota, calculate_auto_quota_interval,
      rl_is_throttled, apply_jitter]

/-- C6 as amended: the final polling interval is perturbed (by at most ± the
configured jitter percentage, for a draw `u ∈ [-1, 1]`) exactly when an API
proxy URL is configured — no perturbation otherwise — and with a proxy the
perturbation applies to every interval the scheduler computes, including the
raw suspend-until-reset duration of the throttled suspend branch (see the
counterexample). -/
theorem jitter_scope_amended (e : QuotaEnv) (jp u : ℚ) (ci : Int)
    (hok : calculate_auto_quota_interval e = .ok (some ci)) :
    (e.has_proxy = false →
      adjust_interval_for_auto_quota e jp u = .ok (some ((ci : ℚ)))) ∧
    (e.has_proxy = true →
      adjust_interval_for_auto_quota e jp u =
        .ok (some ((ci : ℚ) * (1 + jp / 100 * u))) ∧
      (0 ≤ (ci : ℚ) → 0 ≤ jp → |u| ≤ 1 →
        |(ci : ℚ) * (1 + jp / 100 * u) - (ci : ℚ)| ≤ (ci : ℚ) * (jp / 100))) := by
  unfold adjust_interval_for_auto_quota
  rw [hok]
  refine ⟨fun hp => ?_, fun hp => ⟨?_, fun hc hj hu => ?_⟩⟩
  · rw [hp]
    rfl
  · rw [hp]
    rfl
  · have he : (ci : ℚ) * (1 + jp / 100 * u) - (ci : ℚ) = (ci : ℚ) * (jp / 100) * u := by
      ring
    rw [he, abs_mul, abs_of_nonneg (mul_nonneg hc (by linarith))]
    exact mul_le_of_le_one_right (mul_nonneg hc (by linarith)) hu

/-- Witness for the amended C6: with the proxy configured in the throttled
environment of the counterexample, the adjusted interval is exactly the
jittered suspend duration. -/
theorem jitter_scope_amended_witness :
    adjust_interval_for_auto_quota
      { rate_limit := ⟨100, 0, 5⟩
        disable_polling_when_throttled := true
        is_reduced_polling_logic_enabled := false
        reduced_conf := none
        auto_quota_percent := 50
        base_scan_interval := 600
        has_proxy := true
        now := 0
        next_reset := 7200
        background_cost_24h := 10
        predicted_poll_cost := 2
        min_auto_quota_interval_s := 300
        min_proxy_interval_s := 600 } 10 1 =
      .ok (some (((7200 : Int) : ℚ) * (1 + (10 : ℚ) / 100 * 1))) :=
  ((jitter_scope_amended
      { rate_limit := ⟨100, 0, 5⟩
        disable_polling_when_throttled := true
        is_reduced_polling_logic_enabled := false
        reduced_conf := none
        auto_quota_percent := 50
        base_scan_interval := 600
        has_proxy := true
        now := 0
        next_reset := 7200
        background_cost_24h := 10
        predicted_poll_cost := 2
        min_auto_quota_interval_s := 300
        min_proxy_interval_s := 600 } 10 1 7200
      (by norm_num [calculate_auto_quota_interval, rl_is_throttled])).2 rfl).1

/-! ### C7: the daily reset poll -/

/-- Counterexample to C7 as stated: when polling is globally disabled and
cached data exists, the reset-poll's forced refresh is still answered from the
cache — the prologue of `_async_update_data` checks the global polling switch
before (and regardless of) `_force_next_update`, so no fetch is performed. -/
theorem reset_poll_counterexample :
    on_reset_poll
      { is_polling_enabled := false
        has_data := true
        is_reduced_polling_logic_enabled := false
        reduced_conf := none
        now := 0
        disable_polling_when_throttled := false
        rate_limit := ⟨100, 50, 5⟩
        force_next_update := false } 50 = (.returnCached, true) ∧
    decide ((UpdateDecision.returnCached) = .fetch) = false := by
  exact ⟨rfl, rfl⟩

/-- C7 as amended: the reset-poll timer's forced refresh bypasses only the
throttle gate — with the force flag set, the fetch is performed if and only if
the global polling switch does not block it (polling enabled, or no cached
data yet) and no zero-interval reduced window with cached data is active; in
particular it proceeds regardless of throttle and suspend state whenever those
two gates are clear; afterwards the timer re-arms itself exactly when the auto
quota percent is positive. -/
theorem reset_poll_amended (e : UpdateGateEnv) (p : Int) :
    ((on_reset_poll e p).1 = .fetch ↔
      (e.is_polling_enabled = true ∨ e.has_data = false) ∧
      zeroWindowSkip e = false) ∧
    (e.is_polling_enabled = true → zeroWindowSkip e = false →
      (on_reset_poll e p).1 = .fetch) ∧
    ((on_reset_poll e p).2 = decide (0 < p)) := by
  have hzf : zeroWindowSkip { e with force_next_update := true } = zeroWindowSkip e :=
    rfl
  unfold on_reset_poll update_data_gate
  rw [hzf]
  refine ⟨?_, fun h1 h2 => ?_, rfl⟩
  · cases hp1 : e.is_polling_enabled <;> cases hd : e.has_data <;>
      cases hz : zeroWindowSkip e <;> simp
  · rw [h1, h2]
    simp

/-- Witness for the amended C7: with polling enabled and no zero-interval
window active, the forced reset refresh fetches even though the budget is
throttled and disable-polling-when-throttled is set. -/
theorem reset_poll_amended_witness :
    (on_reset_poll
      { is_polling_enabled := true
        has_data := true
        is_reduced_polling_logic_enabled := false
        reduced_conf := none
        now := 0
        disable_polling_when_throttled := true
        rate_limit := ⟨100, 0, 5⟩
        force_next_update := false } 50).1 = .fetch :=
  (reset_poll_amended
    { is_polling_enabled := true
      has_data := true
      is_reduced_polling_logic_enabled := false
      reduced_conf := none
      now := 0
      disable_polling_when_throttled := true
      rate_limit := ⟨100, 0, 5⟩
      force_next_update := false } 50).2.1 rfl rfl

/-! ### C8: per-sub-action error isolation in batches -/

theorem map_stripFail_callEff_comp {P α : Type} (oracle : ApiCall P → Bool)
    (f : α → ApiCall P) (l : List α) :
    (l.map (fun a => callEff oracle (f a))).map stripFail =
      l.map (fun a => Effect.call (f a) false) := by
  simp [List.map_map, Function.comp_def, callEff, stripFail]

theorem map_stripFail_callEff {P : Type} (oracle : ApiCall P → Bool)
    (l : List (ApiCall P)) :
    (l.map (callEff oracle)).map stripFail = l.map (fun c => Effect.call c false) := by
  simp [List.map_map, Function.comp_def, callEff, stripFail]

theorem countP_map_eq_zero {P α : Type} (q : Effect P → Bool) (g : α → Effect P)
    (hg : ∀ a, q (g a) = false) (l : List α) : (l.map g).countP q = 0 := by
  rw [List.countP_eq_zero]
  intro e he
  obtain ⟨a, _, rfl⟩ := List.mem_map.mp he
  simp [hg]

theorem process_batch_strip_oracle_free {P : Type} (oracle : ApiCall P → Bool)
    (m : MergedResult P) (n : Nat) (rl : RateLimitState) (h : Int × Int) :
    (process_batch oracle m n rl h).1.map stripFail =
      (process_batch (fun _ => false) m n rl h).1.map stripFail := by
  unfold process_batch
  cases m.presence <;> cases m.manual_poll <;>
    simp [List.map_append, List.map_map, Function.comp_def, callEff, stripFail]

theorem process_batch_rl_oracle_free {P : Type} (oracle : ApiCall P → Bool)
    (m : MergedResult P) (n : Nat) (rl : RateLimitState) (h : Int × Int) :
    (process_batch oracle m n rl h).2 =
      (process_batch (fun _ => false) m n rl h).2 := rfl

theorem process_batch_no_rollback {P : Type} (oracle : ApiCall P → Bool)
    (m : MergedResult P) (n : Nat) (rl : RateLimitState) (h : Int × Int) :
    (process_batch oracle m n rl h).1.countP isRollback = 0 := by
  unfold process_batch
  cases m.presence <;> cases m.manual_poll <;>
    simp [List.countP_append, List.countP_cons, List.countP_map,
      Function.comp_def, callEff, isRollback] <;>
    split_ifs <;>
    simp [List.countP_append, List.countP_cons, isRollback]

/-- C8: a remote-client error during one sub-action of a batch is caught inside
that sub-action: for every failure oracle, the trace of attempted calls (and
every non-call effect) is the same as under the failure-free oracle — every
sibling sub-action still executes, the rate-limit outcome is unchanged, the
worker loop goes on to process every subsequent batch — and no effect on the
trace ever rolls back the optimistic overlay or the locally patched read state. -/
theorem batch_error_isolation {P : Type} (oracle : ApiCall P → Bool)
    (batches : List (WorkerBatch P)) (rl : RateLimitState) :
    (worker_loop oracle rl batches).1.map stripFail =
      (worker_loop (fun _ => false) rl batches).1.map stripFail ∧
    (worker_loop oracle rl batches).2 =
      (worker_loop (fun _ => false) rl batches).2 ∧
    (worker_loop oracle rl batches).1.countP isRollback = 0 := by
  induction batches generalizing rl with
  | nil => simp [worker_loop]
  | cons b rest ih =>
    obtain ⟨ih1, ih2, ih3⟩ :=
      ih (process_batch (fun _ => false) b.merged b.ncommands rl b.headers).2
    have hrl : (process_batch oracle b.merged b.ncommands rl b.headers).2 =
        (process_batch (fun _ => false) b.merged b.ncommands rl b.headers).2 := rfl
    refine ⟨?_, ?_, ?_⟩
    · simp only [worker_loop, List.map_append]
      rw [process_batch_strip_oracle_free, hrl, ih1]
    · simp only [worker_loop]
      rw [hrl]
      exact ih2
    · simp only [worker_loop, List.countP_append]
      rw [process_batch_no_rollback, hrl, ih3]

/-! ### C9: implicit throttled-batch accounting -/

/-- C9: after processing a batch whose merged result contains no manual-poll
request, the rate limit is re-synced from the response headers and then,
exactly when the synced budget is throttled, the remaining counter is
additionally decremented by the total number of commands in the batch; when the
merged result does contain a manual-poll request, the poll is executed instead
and no heuristic decrement happens. -/
theorem throttled_batch_accounting {P : Type} (oracle : ApiCall P → Bool)
    (m : MergedResult P) (n : Nat) (rl : RateLimitState) (hl hr : Int) :
    (m.manual_poll = none →
      Effect.syncRateLimit ∈ (process_batch oracle m n rl (hl, hr)).1 ∧
      (rl_is_throttled (sync_from_headers rl hl hr) = true →
        (process_batch oracle m n rl (hl, hr)).2 =
          rl_decrement (sync_from_headers rl hl hr) n ∧
        Effect.decrementRate n ∈ (process_batch oracle m n rl (hl, hr)).1) ∧
      (rl_is_throttled (sync_from_headers rl hl hr) = false →
        (process_batch oracle m n rl (hl, hr)).2 = sync_from_headers rl hl hr ∧
        (process_batch oracle m n rl (hl, hr)).1.countP isDecrement = 0)) ∧
    (∀ t, m.manual_poll = some t →
      Effect.manualPoll t ∈ (process_batch oracle m n rl (hl, hr)).1 ∧
      (process_batch oracle m n rl (hl, hr)).2 = sync_from_headers rl hl hr ∧
      (process_batch oracle m n rl (hl, hr)).1.countP isDecrement = 0) := by
  have hcnt : ∀ (α : Type) (g : α → ApiCall P) (l : List α),
      (l.map (fun a => callEff oracle (g a))).countP isDecrement = 0 :=
    fun α g l => countP_map_eq_zero _ _ (fun a => by simp [callEff, isDecrement]) l
  refine ⟨fun hnone => ?_, fun t hsome => ?_⟩
  · unfold process_batch
    rw [hnone]
    cases ht : rl_is_throttled (sync_from_headers rl hl hr) with
    | true =>
      refine ⟨?_, fun _ => ⟨?_, ?_⟩, fun hc => ?_⟩
      · cases m.presence <;> simp [ht]
      · simp [ht]
      · cases m.presence <;> simp [ht]
      · simp [ht] at hc
    | false =>
      refine ⟨?_, fun hc => ?_, fun _ => ⟨?_, ?_⟩⟩
      · cases m.presence <;> simp [ht]
      · simp [ht] at hc
      · simp [ht]
      · cases m.presence <;>
          simp [ht, List.countP_append, List.countP_cons, List.countP_map,
            Function.comp_def, isDecrement, callEff]
  · unfold process_batch
    rw [hsome]
    refine ⟨?_, rfl, ?_⟩
    · cases m.presence <;> simp
    · cases m.presence <;>
        simp [List.countP_append, List.countP_cons, List.countP_map,
          Function.comp_def, isDecrement, callEff]

/-- Witness for C9: a batch of 3 commands with no manual poll, whose responses
leave headers (100, 4) with threshold 5: the synced budget (4) is throttled, so
the remaining counter drops to `max 0 (4 - 3) = 1`. -/
theorem throttled_batch_accounting_witness :
    (({ presence := none, child_lock := [], offsets := [], away_temps := [],
        dazzle_modes := [], early_starts := [], open_windows := [],
        identifies := [], zones := [], manual_poll := none } :
        MergedResult Nat).manual_poll = none) ∧
    (process_batch (fun _ => false)
      ({ presence := none, child_lock := [], offsets := [], away_temps := [],
         dazzle_modes := [], early_starts := [], open_windows := [],
         identifies := [], zones := [], manual_poll := none } : MergedResult Nat)
      3 ⟨100, 50, 5⟩ (100, 4)).2 = rl_decrement (sync_from_headers ⟨100, 50, 5⟩ 100 4) 3 :=
  ⟨rfl,
   (((throttled_batch_accounting (fun _ => false)
      ({ presence := none, child_lock := [], offsets := [], away_temps := [],
         dazzle_modes := [], early_starts := [], open_windows := [],
         identifies := [], zones := [], manual_poll := none } : MergedResult Nat)
      3 ⟨100, 50, 5⟩ 100 4).1 rfl).2.1 (by rfl)).1⟩

/-! ### C1: per-key debounce is last-write-wins -/

theorem setKey_same {α : Type} (f : String → Option α) (k : String)
    (v : Option α) : setKey f k v k = v := by
  simp [setKey]

theorem setKey_other {α : Type} (f : String → Option α) (k k2 : String)
    (v : Option α) (h : k2 ≠ k) : setKey f k v k2 = f k2 := by
  simp [setKey, h]

theorem fire_timer_other {Cmd : Type} (t : Nat) (k k2 : String)
    (s : DebounceState Cmd) (hk : k ≠ k2) :
    (fire_timer t k2 s).actionQueue k = s.actionQueue k ∧
    (fire_timer t k2 s).timerFire k = s.timerFire k := by
  cases htf : s.timerFire k2 with
  | none => simp [fire_timer, htf]
  | some ft =>
    by_cases hle : ft ≤ t
    · cases haq : s.actionQueue k2 <;>
        simp [fire_timer, htf, hle, haq, setKey_other _ _ _ _ hk]
    · simp [fire_timer, htf, hle]

theorem debStep_harmless {Cmd : Type} (debounce : Nat) (k : String) (dl : Nat)
    (s : DebounceState Cmd) (e : DebEvent Cmd)
    (hq : s.timerFire k = some dl)
    (he : harmless k dl e = true) :
    (debStep debounce s e).actionQueue k = s.actionQueue k ∧
    (debStep debounce s e).timerFire k = some dl := by
  cases e with
  | submit t k2 c =>
    have hk : k2 ≠ k := by simpa [harmless] using he
    constructor
    · simp [debStep, queue_command, setKey_other _ _ _ _ (fun h => hk h.symm)]
    · simp [debStep, queue_command, setKey_other _ _ _ _ (fun h => hk h.symm), hq]
  | fire t k2 =>
    by_cases hk : k2 = k
    · subst hk
      have ht : t < dl := by simpa [harmless] using he
      simp [debStep, fire_timer, hq, Nat.not_le.mpr ht]
    · have h := fire_timer_other t k k2 s (fun h => hk h.symm)
      refine ⟨?_, ?_⟩
      · simpa [debStep] using h.1
      · rw [show (debStep debounce s (DebEvent.fire t k2)) = fire_timer t k2 s
          from rfl, h.2]
        exact hq

theorem debRun_harmless {Cmd : Type} (debounce : Nat) (k : String) (dl : Nat)
    (evs : List (DebEvent Cmd)) :
    ∀ s : DebounceState Cmd, s.timerFire k = some dl →
      (∀ e ∈ evs, harmless k dl e = true) →
      (debRun debounce s evs).actionQueue k = s.actionQueue k ∧
      (debRun debounce s evs).timerFire k = some dl := by
  induction evs with
  | nil => exact fun s hq _ => ⟨rfl, hq⟩
  | cons e rest ih =>
    intro s hq hh
    have h1 := debStep_harmless debounce k dl s e hq (hh e (by simp))
    have h2 := ih (debStep debounce s e) h1.2 (fun x hx => hh x (by simp [hx]))
    simp only [debRun, List.foldl_cons] at *
    exact ⟨h2.1.trans h1.1, h2.2⟩

theorem debScenario_last {Cmd : Type} (debounce : Nat) (k : String)
    (subs : List (Nat × Cmd × List (DebEvent Cmd))) :
    ∀ (s : DebounceState Cmd) (tn : Nat) (cn : Cmd) (mids : List (DebEvent Cmd)),
      (∀ seg ∈ subs ++ [(tn, cn, mids)], ∀ e ∈ seg.2.2,
          harmless k (seg.1 + debounce) e = true) →
      (debScenario debounce k s (subs ++ [(tn, cn, mids)])).actionQueue k = some cn ∧
      (debScenario debounce k s (subs ++ [(tn, cn, mids)])).timerFire k =
        some (tn + debounce) := by
  induction subs with
  | nil =>
    intro s tn cn mids hh
    have hq : (queue_command debounce tn k cn s).timerFire k = some (tn + debounce) := by
      simp [queue_command, setKey_same]
    have haq : (queue_command debounce tn k cn s).actionQueue k = some cn := by
      simp [queue_command, setKey_same]
    have h := debRun_harmless debounce k (tn + debounce) mids
      (queue_command debounce tn k cn s) hq
      (fun e he => hh (tn, cn, mids) (by simp) e he)
    simp only [List.nil_append, debScenario]
    exact ⟨h.1.trans haq, h.2⟩
  | cons seg rest ih =>
    intro s tn cn mids hh
    obtain ⟨t, c, ms⟩ := seg
    simp only [List.cons_append, debScenario]
    exact ih _ tn cn mids (fun sg hsg e he => hh sg (by simp [hsg]) e he)

/-- C1: for every sequence of `queue_command` calls with the same resource key,
each arriving before that key's previously scheduled debounce timer fires (and
interleaved only with events harmless to the key: other keys' traffic and
too-early delivery attempts), the pending-command map holds exactly one command
for the key — the last one submitted — with its timer scheduled at (last
submission time + debounce); a delivery attempt strictly before that instant
changes nothing, and a delivery at or after it moves exactly that surviving
command to the ready FIFO — never earlier than one full debounce delay after
the last submission. -/
theorem debounce_last_write_wins {Cmd : Type} (debounce : Nat) (k : String)
    (s0 : DebounceState Cmd) (subs : List (Nat × Cmd × List (DebEvent Cmd)))
    (tn : Nat) (cn : Cmd) (mids : List (DebEvent Cmd))
    (hchain : List.Chain' (fun a b => b.1 < a.1 + debounce)
      (subs ++ [(tn, cn, mids)]))
    (hharm : ∀ seg ∈ subs ++ [(tn, cn, mids)], ∀ e ∈ seg.2.2,
        harmless k (seg.1 + debounce) e = true) :
    (debScenario debounce k s0 (subs ++ [(tn, cn, mids)])).actionQueue k = some cn ∧
    (debScenario debounce k s0 (subs ++ [(tn, cn, mids)])).timerFire k =
      some (tn + debounce) ∧
    (∀ t, t < tn + debounce →
      fire_timer t k (debScenario debounce k s0 (subs ++ [(tn, cn, mids)])) =
        debScenario debounce k s0 (subs ++ [(tn, cn, mids)])) ∧
    (∀ t, tn + debounce ≤ t →
      (fire_timer t k (debScenario debounce k s0 (subs ++ [(tn, cn, mids)]))).ready =
        (debScenario debounce k s0 (subs ++ [(tn, cn, mids)])).ready ++ [cn] ∧
      (fire_timer t k (debScenario debounce k s0
        (subs ++ [(tn, cn, mids)]))).actionQueue k = none) := by
  obtain ⟨h1, h2⟩ := debScenario_last debounce k subs s0 tn cn mids hharm
  refine ⟨h1, h2, fun t ht => ?_, fun t ht => ?_⟩
  · simp [fire_timer, h2, Nat.not_le.mpr ht]
  · constructor
    · simp [fire_timer, h2, h1, ht]
    · simp [fire_timer, h2, h1, ht, setKey_same]

/-- Witness for C1 at concrete inputs: key `"zone_1"`, debounce 10 s,
submissions of commands 1 and 2 at times 0 and 5 (5 < 0 + 10), with a
too-early delivery attempt at time 3 in between: the pending map holds command
2, a delivery at time 15 ≥ 5 + 10 moves exactly command 2 to the ready FIFO. -/
theorem debounce_last_write_wins_witness :
    (debScenario 10 "zone_1"
      ⟨fun _ => none, fun _ => none, ([] : List Nat)⟩
      ([(0, 1, [DebEvent.fire 3 "zone_1"])] ++ [(5, 2, [])])).actionQueue "zone_1" =
      some 2 ∧
    (fire_timer 15 "zone_1" (debScenario 10 "zone_1"
      ⟨fun _ => none, fun _ => none, ([] : List Nat)⟩
      ([(0, 1, [DebEvent.fire 3 "zone_1"])] ++ [(5, 2, [])]))).ready =
      (debScenario 10 "zone_1"
        ⟨fun _ => none, fun _ => none, ([] : List Nat)⟩
        ([(0, 1, [DebEvent.fire 3 "zone_1"])] ++ [(5, 2, [])])).ready ++ [2] := by
  have h := debounce_last_write_wins 10 "zone_1"
    ⟨fun _ => none, fun _ => none, ([] : List Nat)⟩
    [(0, 1, [DebEvent.fire 3 "zone_1"])] 5 2 []
    (by
      simp only [List.singleton_append]
      exact List.chain'_cons.mpr ⟨by norm_num, List.chain'_singleton _⟩)
    (by decide)
  exact ⟨h.1, (h.2.2.2 15 (by omega)).1⟩

end TadoHijack
